import Mathlib

/-!
Shallow embedding of the fuel-station service
(src/app.py, src/api_server.py of Mortillaro-Rutigliano-gestione-distributori).

Python floats are modelled as exact rationals (ℚ); raising `ValueError`
is modelled by returning `Except.error` with the exact Python message,
and the convention that a raised call leaves the mutable state unchanged.
JSON request bodies are modelled as association lists of `JsonVal`.
-/

/-- A JSON value, as far as the bulk price-update endpoint can observe it:
numbers, strings, booleans and null. -/
inductive JsonVal where
  | num (q : ℚ)
  | str (s : String)
  | bool (b : Bool)
  | null
deriving DecidableEq, Repr

/-- `Serbatoio` from src/app.py lines 11-34 (identical in src/api_server.py):
a tank with a maximum capacity and a current level, both floats. -/
structure Serbatoio where
  capacita : ℚ
  livello : ℚ := 0
deriving DecidableEq, Repr

/-- `Serbatoio.aggiungi` (src/app.py lines 16-20): rejects a negative
quantity with `ValueError("quantita negativa")`, otherwise clamps the new
level at the capacity. -/
def Serbatoio.aggiungi (s : Serbatoio) (quantita : ℚ) : Except String Serbatoio :=
  if quantita < 0 then .error "quantita negativa"
  else .ok { s with livello := min s.capacita (s.livello + quantita) }

/-- `Serbatoio.preleva` (src/app.py lines 22-28): rejects a negative
quantity, rejects a quantity above the current level, otherwise subtracts. -/
def Serbatoio.preleva (s : Serbatoio) (quantita : ℚ) : Except String Serbatoio :=
  if quantita < 0 then .error "quantita negativa"
  else if quantita > s.livello then .error "livello insufficiente"
  else .ok { s with livello := s.livello - quantita }

/-- `Serbatoio.percentuale` (src/app.py lines 30-34): fill percentage,
`0.0` when the capacity is zero. -/
def Serbatoio.percentuale (s : Serbatoio) : ℚ :=
  if s.capacita = 0 then 0
  else s.livello / s.capacita * 100

/-- One call against a tank: either `aggiungi` or `preleva`, with its
argument. -/
inductive TankOp where
  | aggiungi (q : ℚ)
  | preleva (q : ℚ)
deriving DecidableEq, Repr

/-- The state after one call: a raised `ValueError` leaves the tank
unchanged (Python raises before any mutation), a successful call returns
the updated tank. -/
def applyOp (s : Serbatoio) (op : TankOp) : Serbatoio :=
  match op with
  | .aggiungi q =>
    match s.aggiungi q with
    | .ok s2 => s2
    | .error _ => s
  | .preleva q =>
    match s.preleva q with
    | .ok s2 => s2
    | .error _ => s

/-- The state after a finite sequence of calls. -/
def runOps (s : Serbatoio) (ops : List TankOp) : Serbatoio :=
  ops.foldl applyOp s

/-- `Distributore` from src/app.py lines 36-47 (identical fields in
src/api_server.py). -/
structure Distributore where
  id : ℤ
  nome : String
  provincia : String
  indirizzo : String
  lat : ℚ
  lon : ℚ
  serbatoio_benzina : Serbatoio
  serbatoio_diesel : Serbatoio
  prezzo_benzina : ℚ
  prezzo_diesel : ℚ
deriving DecidableEq, Repr

/-- `Distributore.set_prezzo` (src/app.py lines 67-76): negative price
check first, then dispatch on the fuel-kind tag. -/
def Distributore.set_prezzo (d : Distributore) (tipo : String) (nuovo_prezzo : ℚ) :
    Except String Distributore :=
  if nuovo_prezzo < 0 then .error "Prezzo negativo"
  else if tipo = "benzina" then .ok { d with prezzo_benzina := nuovo_prezzo }
  else if tipo = "diesel" then .ok { d with prezzo_diesel := nuovo_prezzo }
  else .error "Tipo carburante sconosciuto"

/-- Seed station with id 1 (src/app.py lines 82-93). -/
def distributore1 : Distributore :=
  { id := 1, nome := "IPERSTAR Ovest", provincia := "MI",
    indirizzo := "Via Roma 10, Milano", lat := 45.4642, lon := 9.1900,
    serbatoio_benzina := { capacita := 10000, livello := 7000 },
    serbatoio_diesel := { capacita := 12000, livello := 9000 },
    prezzo_benzina := 1.90, prezzo_diesel := 1.80 }

/-- Seed station with id 2 (src/app.py lines 94-105). -/
def distributore2 : Distributore :=
  { id := 2, nome := "IPERSTAR Sud", provincia := "MI",
    indirizzo := "Piazza Duomo 1, Milano", lat := 45.4643, lon := 9.1910,
    serbatoio_benzina := { capacita := 8000, livello := 2000 },
    serbatoio_diesel := { capacita := 10000, livello := 4000 },
    prezzo_benzina := 1.92, prezzo_diesel := 1.82 }

/-- Seed station with id 3 (src/app.py lines 106-117). -/
def distributore3 : Distributore :=
  { id := 3, nome := "IPERSTAR Nord", provincia := "TO",
    indirizzo := "Corso Francia 2, Torino", lat := 45.0703, lon := 7.6869,
    serbatoio_benzina := { capacita := 9000, livello := 9000 },
    serbatoio_diesel := { capacita := 11000, livello := 5000 },
    prezzo_benzina := 1.95, prezzo_diesel := 1.85 }

/-- The in-memory seed registry `_distributori` (src/app.py lines 81-118,
identical in src/api_server.py). -/
def distributoriSeed : List Distributore :=
  [distributore1, distributore2, distributore3]

/-- Python's `str.lower()` on the ASCII province codes and tags this
service uses, computed character by character. -/
def strLower (s : String) : String :=
  ⟨s.data.map Char.toLower⟩

/-- The province test `d.provincia.lower() == provincia.lower()` used by
the filtering endpoints and the bulk update loop. -/
def matchProv (provincia : String) (d : Distributore) : Bool :=
  strLower d.provincia == strLower provincia

/-- Dictionary lookup `data[k]` / `k in data` on a JSON object modelled as
an association list. -/
def lookupKey (data : List (String × JsonVal)) (k : String) : Option JsonVal :=
  (data.find? (fun kv => kv.1 == k)).map (fun kv => kv.2)

/-- Python's `float(x)` on a decimal string: optional surrounding
whitespace, optional sign, digits with an optional single decimal point
(at least one digit overall). Restriction of CPython's parser, which also
accepts exponents, `inf`/`nan` and underscores; the inputs this
development evaluates are plain decimal literals, on which the two
agree. -/
def parseDecimal (s : String) : Option ℚ :=
  let t := ((s.data.dropWhile Char.isWhitespace).reverse.dropWhile Char.isWhitespace).reverse
  let (sign, body) : ℚ × List Char :=
    match t with
    | '-' :: r => (-1, r)
    | '+' :: r => (1, r)
    | _ => (1, t)
  let digitsVal : List Char → ℕ := fun w => w.foldl (fun n c => n * 10 + (c.toNat - 48)) 0
  match body.splitOn '.' with
  | [a] =>
    if a ≠ [] ∧ a.all Char.isDigit then some (sign * (digitsVal a : ℚ)) else none
  | [a, b] =>
    if (a ≠ [] ∨ b ≠ []) ∧ a.all Char.isDigit ∧ b.all Char.isDigit then
      some (sign * ((digitsVal a : ℚ) + (digitsVal b : ℚ) / (10 : ℚ) ^ b.length))
    else none
  | _ => none

/-- Python's `float(x)` on a JSON value: numbers pass through, booleans
coerce to 1/0, strings go through the decimal parser, `None` raises
(modelled as `none`). -/
def pyFloat : JsonVal → Option ℚ
  | .num q => some q
  | .bool b => some (if b then 1 else 0)
  | .str s => parseDecimal s
  | .null => none

/-- One `if k in data: try: float(data[k]) except: 400` block of the bulk
price-update handler (src/app.py lines 207-216). -/
def parsePrezzo (data : List (String × JsonVal)) (k : String) : Except String (Option ℚ) :=
  match lookupKey data k with
  | none => .ok none
  | some v =>
    match pyFloat v with
    | some q => .ok (some q)
    | none => .error ("Prezzo " ++ k ++ " non valido")

/-- The body of the update loop for one matching station (src/app.py
lines 225-228): `set_prezzo` for benzina if present, then for diesel if
present. A raise carries out the station as it stands at that moment —
the benzina update, already applied in place, is kept. -/
def updatePrezzi (d : Distributore) (pb pd : Option ℚ) :
    Except (String × Distributore) Distributore :=
  match
    (match pb with
     | none => Except.ok d
     | some q =>
       match d.set_prezzo "benzina" q with
       | .ok d2 => .ok d2
       | .error e => .error (e, d)) with
  | .error x => .error x
  | .ok d2 =>
    match pd with
    | none => .ok d2
    | some q =>
      match d2.set_prezzo "diesel" q with
      | .ok d3 => .ok d3
      | .error e => .error (e, d2)

/-- The success-path effect of `updatePrezzi`: each present price
replaces the matching field. -/
def applyPrezzi (d : Distributore) (pb pd : Option ℚ) : Distributore :=
  { d with prezzo_benzina := pb.getD d.prezzo_benzina,
           prezzo_diesel := pd.getD d.prezzo_diesel }

/-- The `for d in _distributori` loop of the bulk price-update handler
(src/app.py lines 223-229). On success it returns the updated registry
and the collected ids; on a raise it returns the message together with
the registry as mutated so far (stations already processed keep their
updates, the raising station keeps any in-station partial update). -/
def loopDistributori (provincia : String) (pb pd : Option ℚ) :
    List Distributore → Except (String × List Distributore) (List Distributore × List ℤ)
  | [] => .ok ([], [])
  | d :: rest =>
    if matchProv provincia d then
      match updatePrezzi d pb pd with
      | .error (e, dPartial) => .error (e, dPartial :: rest)
      | .ok d2 =>
        match loopDistributori provincia pb pd rest with
        | .error (e, rest2) => .error (e, d2 :: rest2)
        | .ok (rest2, ids) => .ok (d2 :: rest2, d.id :: ids)
    else
      match loopDistributori provincia pb pd rest with
      | .error (e, rest2) => .error (e, d :: rest2)
      | .ok (rest2, ids) => .ok (d :: rest2, ids)

/-- Outcome of the bulk price-update handler as the HTTP layer sees it:
an explicit 400 with an error message, a 200 with the `aggiornati` ids,
or an exception that escapes the handler (Flask turns it into a 500). -/
inductive HandlerResult where
  | badRequest (msg : String)
  | ok (aggiornati : List ℤ)
  | serverError (msg : String)
deriving DecidableEq, Repr

/-- The HTTP status code each outcome is reported with. -/
def HandlerResult.status : HandlerResult → ℕ
  | .badRequest _ => 400
  | .ok _ => 200
  | .serverError _ => 500

/-- `api_cambia_prezzi_provincia` (src/app.py lines 196-231). `body` is
`none` for a missing/non-JSON body; `if not data` is also true for an
empty JSON object. Returns the outcome and the registry after the call. -/
def api_cambia_prezzi_provincia (reg : List Distributore) (provincia : String)
    (body : Option (List (String × JsonVal))) : HandlerResult × List Distributore :=
  match body with
  | none => (.badRequest "Richiesta JSON mancante", reg)
  | some data =>
    if data.isEmpty then (.badRequest "Richiesta JSON mancante", reg)
    else
      match parsePrezzo data "benzina" with
      | .error msg => (.badRequest msg, reg)
      | .ok pb =>
        match parsePrezzo data "diesel" with
        | .error msg => (.badRequest msg, reg)
        | .ok pd =>
          if pb.isNone && pd.isNone then (.badRequest "Nessun prezzo fornito", reg)
          else
            match loopDistributori provincia pb pd reg with
            | .ok (reg2, ids) => (.ok ids, reg2)
            | .error (msg, reg2) => (.serverError msg, reg2)

/-- One element of the response of `api_livelli_provincia` in src/app.py
(lines 145-157): the level-view dictionary, in the exact key order of the
source. -/
def levelsEntry (d : Distributore) : List (String × JsonVal) :=
  [ ("id", .num (d.id : ℚ)),
    ("nome", .str d.nome),
    ("livello_benzina", .num d.serbatoio_benzina.livello),
    ("capacita_benzina", .num d.serbatoio_benzina.capacita),
    ("percent_benzina", .num d.serbatoio_benzina.percentuale),
    ("livello_diesel", .num d.serbatoio_diesel.livello),
    ("capacita_diesel", .num d.serbatoio_diesel.capacita),
    ("percent_diesel", .num d.serbatoio_diesel.percentuale) ]

/-- The key set of the level view, as listed in the specification. -/
def levelViewKeys : List String :=
  [ "id", "nome", "livello_benzina", "capacita_benzina", "percent_benzina",
    "livello_diesel", "capacita_diesel", "percent_diesel" ]

/-- `api_livelli_provincia` (src/app.py lines 137-157): filter by
province, answer 200 with an empty array when nothing matches, otherwise
200 with the level views in registry order. -/
def api_livelli_provincia (reg : List Distributore) (provincia : String) :
    ℕ × List (List (String × JsonVal)) :=
  let selezionati := reg.filter (matchProv provincia)
  if selezionati.isEmpty then (200, [])
  else (200, selezionati.map levelsEntry)

namespace ApiServer

/-- `Distributore.to_dict` of src/api_server.py (lines 50-67): the full
summary including identity, location, prices, levels, capacities and
percentages. -/
def to_dict (d : Distributore) : List (String × JsonVal) :=
  [ ("id", .num (d.id : ℚ)),
    ("nome", .str d.nome),
    ("provincia", .str d.provincia),
    ("indirizzo", .str d.indirizzo),
    ("lat", .num d.lat),
    ("lon", .num d.lon),
    ("prezzo_benzina", .num d.prezzo_benzina),
    ("prezzo_diesel", .num d.prezzo_diesel),
    ("livello_benzina", .num d.serbatoio_benzina.livello),
    ("capacita_benzina", .num d.serbatoio_benzina.capacita),
    ("percent_benzina", .num d.serbatoio_benzina.percentuale),
    ("livello_diesel", .num d.serbatoio_diesel.livello),
    ("capacita_diesel", .num d.serbatoio_diesel.capacita),
    ("percent_diesel", .num d.serbatoio_diesel.percentuale) ]

/-- `api_livelli_provincia` of src/api_server.py (lines 144-149): the
same province filter, but every selected station is serialized with the
full `to_dict` summary. -/
def api_livelli_provincia (reg : List Distributore) (provincia : String) :
    ℕ × List (List (String × JsonVal)) :=
  (200, (reg.filter (matchProv provincia)).map to_dict)

end ApiServer

/-- Single-call invariant preservation: one `aggiungi`/`preleva` call,
successful or raising, keeps `0 ≤ livello ≤ capacita` and never touches
the capacity. -/
theorem applyOp_invariant (s : Serbatoio) (op : TankOp)
    (h0 : 0 ≤ s.livello) (h1 : s.livello ≤ s.capacita) :
    (0 ≤ (applyOp s op).livello ∧ (applyOp s op).livello ≤ (applyOp s op).capacita) ∧
      (applyOp s op).capacita = s.capacita := by
  rcases op with q | q
  · by_cases hq : q < 0
    · simp [applyOp, Serbatoio.aggiungi, hq, h0, h1]
    · push_neg at hq
      simp only [applyOp, Serbatoio.aggiungi, if_neg (not_lt.mpr hq)]
      exact ⟨⟨le_min (h0.trans h1) (add_nonneg h0 hq), min_le_left _ _⟩, trivial⟩
  · by_cases hq : q < 0
    · simp [applyOp, Serbatoio.preleva, hq, h0, h1]
    · push_neg at hq
      by_cases hlev : q > s.livello
      · simp [applyOp, Serbatoio.preleva, if_neg (not_lt.mpr hq), hlev, h0, h1]
      · push_neg at hlev
        simp only [applyOp, Serbatoio.preleva, if_neg (not_lt.mpr hq), if_neg (not_lt.mpr hlev)]
        exact ⟨⟨sub_nonneg.mpr hlev, (sub_le_self _ hq).trans h1⟩, trivial⟩

/-- C1: starting from a tank with 0 ≤ level ≤ capacity, any finite
sequence of add/withdraw calls — whether each call succeeds or raises —
leaves the state with 0 ≤ level ≤ capacity and the capacity unchanged. -/
theorem serbatoio_invariant_runOps (s : Serbatoio) (ops : List TankOp)
    (h0 : 0 ≤ s.livello) (h1 : s.livello ≤ s.capacita) :
    0 ≤ (runOps s ops).livello ∧ (runOps s ops).livello ≤ (runOps s ops).capacita ∧
      (runOps s ops).capacita = s.capacita := by
  induction ops generalizing s with
  | nil => exact ⟨h0, h1, rfl⟩
  | cons op rest ih =>
    obtain ⟨⟨k0, k1⟩, kcap⟩ := applyOp_invariant s op h0 h1
    obtain ⟨r0, r1, rcap⟩ := ih (applyOp s op) k0 k1
    exact ⟨r0, r1, rcap.trans kcap⟩

/-- C1 witness: the invariant instance at a concrete tank and a concrete
call sequence containing both succeeding and raising calls. -/
theorem serbatoio_invariant_runOps_witness :
    0 ≤ (runOps { capacita := 10000, livello := 7000 }
          [.aggiungi 5000, .preleva 20000, .aggiungi (-3), .preleva 4000]).livello ∧
      (runOps { capacita := 10000, livello := 7000 }
          [.aggiungi 5000, .preleva 20000, .aggiungi (-3), .preleva 4000]).livello ≤
        (runOps { capacita := 10000, livello := 7000 }
          [.aggiungi 5000, .preleva 20000, .aggiungi (-3), .preleva 4000]).capacita ∧
      (runOps { capacita := 10000, livello := 7000 }
          [.aggiungi 5000, .preleva 20000, .aggiungi (-3), .preleva 4000]).capacita = 10000 :=
  serbatoio_invariant_runOps { capacita := 10000, livello := 7000 }
    [.aggiungi 5000, .preleva 20000, .aggiungi (-3), .preleva 4000]
    (by norm_num) (by norm_num)

/-- C2: `aggiungi` fails (with the invalid-argument error) exactly for a
negative amount, leaving the level unchanged; for a non-negative amount
it sets the level to the minimum of capacity and level + amount. -/
theorem aggiungi_spec (s : Serbatoio) (q : ℚ) :
    ((∃ e, s.aggiungi q = .error e) ↔ q < 0) ∧
      (q < 0 → s.aggiungi q = .error "quantita negativa" ∧ applyOp s (.aggiungi q) = s) ∧
      (0 ≤ q → s.aggiungi q = .ok { s with livello := min s.capacita (s.livello + q) }) := by
  by_cases hq : q < 0
  · simp [Serbatoio.aggiungi, applyOp, hq, not_le.mpr hq]
  · simp [Serbatoio.aggiungi, applyOp, hq, not_lt.mp hq]

/-- C2 witness: adding 5000 to a tank at level 7000 with capacity 10000
clamps the level at 10000 (not 12000). -/
theorem aggiungi_spec_witness :
    Serbatoio.aggiungi { capacita := 10000, livello := 7000 } 5000 =
      .ok { capacita := 10000, livello := 10000 } := by
  have h := (aggiungi_spec { capacita := 10000, livello := 7000 } 5000).2.2 (by norm_num)
  rw [h]
  norm_num [min_def]

/-- C3: `preleva` fails with the invalid-argument error for a negative
amount, fails with the insufficient-level error for a non-negative amount
above the level, succeeds with level - amount otherwise, and every
failure leaves the tank unchanged. -/
theorem preleva_spec (s : Serbatoio) (q : ℚ) :
    ((∃ e, s.preleva q = .error e) ↔ (q < 0 ∨ s.livello < q)) ∧
      (q < 0 → s.preleva q = .error "quantita negativa") ∧
      (0 ≤ q → s.livello < q → s.preleva q = .error "livello insufficiente") ∧
      (0 ≤ q → q ≤ s.livello → s.preleva q = .ok { s with livello := s.livello - q }) ∧
      ((∃ e, s.preleva q = .error e) → applyOp s (.preleva q) = s) := by
  by_cases hq : q < 0
  · simp [Serbatoio.preleva, applyOp, hq, not_le.mpr hq]
  · by_cases hlev : s.livello < q
    · simp [Serbatoio.preleva, applyOp, hq, hlev, not_lt.mp hq, not_le.mpr hlev]
    · simp [Serbatoio.preleva, applyOp, hq, hlev, not_lt.mp hq, not_lt.mp hlev]

/-- C3 witness: withdrawing 8000 from a tank at level 7000 fails with the
insufficient-level error and leaves the tank unchanged. -/
theorem preleva_spec_witness :
    Serbatoio.preleva { capacita := 10000, livello := 7000 } 8000 =
        .error "livello insufficiente" ∧
      applyOp { capacita := 10000, livello := 7000 } (.preleva 8000) =
        { capacita := 10000, livello := 7000 } := by
  have h := preleva_spec { capacita := 10000, livello := 7000 } 8000
  refine ⟨h.2.2.1 (by norm_num) (by norm_num), h.2.2.2.2 ⟨_, h.2.2.1 (by norm_num) (by norm_num)⟩⟩

/-- C9: `percentuale` returns 0 whenever the capacity is 0, regardless of
the level, and 100 · level / capacity otherwise; it is a pure function of
the tank state. -/
theorem percentuale_spec (s : Serbatoio) :
    s.percentuale = if s.capacita = 0 then 0 else 100 * s.livello / s.capacita := by
  by_cases h : s.capacita = 0
  · simp [Serbatoio.percentuale, h]
  · simp only [Serbatoio.percentuale, if_neg h]
    ring

/-- Case analysis of `set_prezzo`: negative price rejected first for any
tag, unknown tag rejected for a non-negative price, success updates
exactly the matching price field. -/
theorem set_prezzo_cases (d : Distributore) (tipo : String) (nuovo : ℚ) :
    (nuovo < 0 → d.set_prezzo tipo nuovo = .error "Prezzo negativo") ∧
      (0 ≤ nuovo → tipo = "benzina" →
        d.set_prezzo tipo nuovo = .ok { d with prezzo_benzina := nuovo }) ∧
      (0 ≤ nuovo → tipo = "diesel" →
        d.set_prezzo tipo nuovo = .ok { d with prezzo_diesel := nuovo }) ∧
      (0 ≤ nuovo → tipo ≠ "benzina" → tipo ≠ "diesel" →
        d.set_prezzo tipo nuovo = .error "Tipo carburante sconosciuto") := by
  by_cases hneg : nuovo < 0
  · simp [Distributore.set_prezzo, hneg, not_le.mpr hneg]
  · refine ⟨fun h => absurd h hneg, fun _ hb => ?_, fun _ hd => ?_, fun _ hb hd => ?_⟩
    · simp [Distributore.set_prezzo, hneg, hb]
    · subst hd
      simp [Distributore.set_prezzo, hneg]
    · simp [Distributore.set_prezzo, hneg, hb, hd]

/-- C4: `set_prezzo` rejects a negative price first (whatever the tag),
rejects an unknown fuel-kind tag when the price is non-negative, and on a
valid tag with a non-negative price updates exactly the matching price
field, leaving every other field of the station unchanged. Failures
return no station, so the station is untouched. -/
theorem set_prezzo_spec (d : Distributore) (tipo : String) (nuovo : ℚ) :
    (nuovo < 0 → d.set_prezzo tipo nuovo = .error "Prezzo negativo") ∧
      (0 ≤ nuovo → tipo = "benzina" →
        d.set_prezzo tipo nuovo = .ok { d with prezzo_benzina := nuovo }) ∧
      (0 ≤ nuovo → tipo = "diesel" →
        d.set_prezzo tipo nuovo = .ok { d with prezzo_diesel := nuovo }) ∧
      (0 ≤ nuovo → tipo ≠ "benzina" → tipo ≠ "diesel" →
        d.set_prezzo tipo nuovo = .error "Tipo carburante sconosciuto") :=
  set_prezzo_cases d tipo nuovo

/-- C4 witness: setting the benzina price to -1 fails with the
invalid-argument error; setting an unknown tag with a non-negative price
fails with the unknown-fuel-kind error; a valid update touches only the
matching field. -/
theorem set_prezzo_spec_witness :
    Distributore.set_prezzo
        { id := 1, nome := "IPERSTAR Ovest", provincia := "MI",
          indirizzo := "Via Roma 10, Milano", lat := 45.4642, lon := 9.1900,
          serbatoio_benzina := { capacita := 10000, livello := 7000 },
          serbatoio_diesel := { capacita := 12000, livello := 9000 },
          prezzo_benzina := 1.90, prezzo_diesel := 1.80 } "benzina" (-1) =
        .error "Prezzo negativo" ∧
      Distributore.set_prezzo
        { id := 1, nome := "IPERSTAR Ovest", provincia := "MI",
          indirizzo := "Via Roma 10, Milano", lat := 45.4642, lon := 9.1900,
          serbatoio_benzina := { capacita := 10000, livello := 7000 },
          serbatoio_diesel := { capacita := 12000, livello := 9000 },
          prezzo_benzina := 1.90, prezzo_diesel := 1.80 } "gpl" 2 =
        .error "Tipo carburante sconosciuto" ∧
      Distributore.set_prezzo
        { id := 1, nome := "IPERSTAR Ovest", provincia := "MI",
          indirizzo := "Via Roma 10, Milano", lat := 45.4642, lon := 9.1900,
          serbatoio_benzina := { capacita := 10000, livello := 7000 },
          serbatoio_diesel := { capacita := 12000, livello := 9000 },
          prezzo_benzina := 1.90, prezzo_diesel := 1.80 } "diesel" 2 =
        .ok { id := 1, nome := "IPERSTAR Ovest", provincia := "MI",
              indirizzo := "Via Roma 10, Milano", lat := 45.4642, lon := 9.1900,
              serbatoio_benzina := { capacita := 10000, livello := 7000 },
              serbatoio_diesel := { capacita := 12000, livello := 9000 },
              prezzo_benzina := 1.90, prezzo_diesel := 2 } :=
  ⟨(set_prezzo_spec _ "benzina" (-1)).1 (by norm_num),
   (set_prezzo_spec _ "gpl" 2).2.2.2 (by norm_num) (by decide) (by decide),
   (set_prezzo_spec _ "diesel" 2).2.2.1 (by norm_num) rfl⟩

/-- When both supplied prices are non-negative, the per-station loop body
succeeds and replaces exactly the present price fields. -/
theorem updatePrezzi_ok (d : Distributore) (pb pd : Option ℚ)
    (hb : ∀ q, pb = some q → 0 ≤ q) (hd : ∀ q, pd = some q → 0 ≤ q) :
    updatePrezzi d pb pd = .ok (applyPrezzi d pb pd) := by
  rcases pb with _ | qb <;> rcases pd with _ | qd
  · simp [updatePrezzi, applyPrezzi]
  · have h1 := (set_prezzo_cases d "diesel" qd).2.2.1 (hd qd rfl) rfl
    simp [updatePrezzi, applyPrezzi, h1]
  · have h1 := (set_prezzo_cases d "benzina" qb).2.1 (hb qb rfl) rfl
    simp [updatePrezzi, applyPrezzi, h1]
  · have h1 := (set_prezzo_cases d "benzina" qb).2.1 (hb qb rfl) rfl
    have h2 := (set_prezzo_cases { d with prezzo_benzina := qb } "diesel" qd).2.2.1 (hd qd rfl) rfl
    simp [updatePrezzi, applyPrezzi, h1, h2]

/-- When both supplied prices are non-negative, the update loop succeeds,
updates exactly the matching stations in place, and collects their ids in
registry order. -/
theorem loopDistributori_ok (provincia : String) (pb pd : Option ℚ)
    (hb : ∀ q, pb = some q → 0 ≤ q) (hd : ∀ q, pd = some q → 0 ≤ q)
    (reg : List Distributore) :
    loopDistributori provincia pb pd reg =
      .ok (reg.map (fun d => if matchProv provincia d then applyPrezzi d pb pd else d),
           (reg.filter (matchProv provincia)).map (fun d => d.id)) := by
  induction reg with
  | nil => simp [loopDistributori]
  | cons d rest ih =>
    by_cases hm : matchProv provincia d
    · simp [loopDistributori, hm, updatePrezzi_ok d pb pd hb hd, ih, List.filter_cons, applyPrezzi]
    · simp [loopDistributori, hm, ih, List.filter_cons]

/-- Success path of the bulk price-update handler: parsed body, at least
one price present, all present prices non-negative. -/
theorem bulk_update_ok (reg : List Distributore) (provincia : String)
    (data : List (String × JsonVal)) (pb pd : Option ℚ)
    (hdata : data.isEmpty = false)
    (hpb : parsePrezzo data "benzina" = .ok pb)
    (hpd : parsePrezzo data "diesel" = .ok pd)
    (hpresent : pb.isSome ∨ pd.isSome)
    (hb : ∀ q, pb = some q → 0 ≤ q) (hd : ∀ q, pd = some q → 0 ≤ q) :
    api_cambia_prezzi_provincia reg provincia (some data) =
      (.ok ((reg.filter (matchProv provincia)).map (fun d => d.id)),
       reg.map (fun d => if matchProv provincia d then applyPrezzi d pb pd else d)) := by
  have hnone : (pb.isNone && pd.isNone) = false := by
    rcases hpresent with h | h <;> rcases pb with _ | q <;> rcases pd with _ | q2 <;>
      simp_all
  simp [api_cambia_prezzi_provincia, hdata, hpb, hpd, hnone,
    loopDistributori_ok provincia pb pd hb hd reg]

/-- C5: a bulk price-update request whose body parses, supplies at least
one of the two prices, and supplies only non-negative (valid) prices,
updates exactly the stations whose province matches case-insensitively,
returns exactly their ids (in seed order) as `aggiornati`, and leaves
every non-matching station unchanged; with no matching station the id
list is empty and the call still succeeds. -/
theorem bulk_update_spec (reg : List Distributore) (provincia : String)
    (data : List (String × JsonVal)) (pb pd : Option ℚ)
    (hdata : data.isEmpty = false)
    (hpb : parsePrezzo data "benzina" = .ok pb)
    (hpd : parsePrezzo data "diesel" = .ok pd)
    (hpresent : pb.isSome ∨ pd.isSome)
    (hb : ∀ q, pb = some q → 0 ≤ q) (hd : ∀ q, pd = some q → 0 ≤ q) :
    api_cambia_prezzi_provincia reg provincia (some data) =
      (.ok ((reg.filter (matchProv provincia)).map (fun d => d.id)),
       reg.map (fun d => if matchProv provincia d then applyPrezzi d pb pd else d)) :=
  bulk_update_ok reg provincia data pb pd hdata hpb hpd hpresent hb hd

/-- C5 witness: the specification's own example — body with benzina 1.77
and diesel 1.66 against province MI of the seed registry. -/
theorem bulk_update_spec_witness :
    api_cambia_prezzi_provincia distributoriSeed "MI"
        (some [("benzina", .num 1.77), ("diesel", .num 1.66)]) =
      (.ok ((distributoriSeed.filter (matchProv "MI")).map (fun d => d.id)),
       distributoriSeed.map (fun d =>
         if matchProv "MI" d then applyPrezzi d (some 1.77) (some 1.66) else d)) := by
  have h := bulk_update_spec distributoriSeed "MI"
    [("benzina", .num 1.77), ("diesel", .num 1.66)] (some 1.77) (some 1.66)
    rfl rfl rfl (Or.inl rfl)
    (fun q hq => by injection hq with hq2; rw [← hq2]; norm_num)
    (fun q hq => by injection hq with hq2; rw [← hq2]; norm_num)
  exact h

/-- C7: a bulk price-update request with a missing/malformed JSON body,
with an empty JSON object, with neither benzina nor diesel present, or
with a non-float-convertible value for a present key, answers with an
explicit 400 and returns the registry completely unchanged. -/
theorem bulk_update_invalid_input_400 (reg : List Distributore) (provincia : String)
    (body : Option (List (String × JsonVal)))
    (h : body = none ∨ ∃ data, body = some data ∧
      (data.isEmpty = true ∨
       (lookupKey data "benzina" = none ∧ lookupKey data "diesel" = none) ∨
       (∃ v, lookupKey data "benzina" = some v ∧ pyFloat v = none) ∨
       (∃ v, lookupKey data "diesel" = some v ∧ pyFloat v = none))) :
    ∃ msg, api_cambia_prezzi_provincia reg provincia body = (.badRequest msg, reg) ∧
      HandlerResult.status (.badRequest msg) = 400 := by
  rcases h with rfl | ⟨data, rfl, hcase⟩
  · exact ⟨"Richiesta JSON mancante", rfl, rfl⟩
  · by_cases hemp : data.isEmpty = true
    · exact ⟨"Richiesta JSON mancante", by simp [api_cambia_prezzi_provincia, hemp], rfl⟩
    · have hemp2 : data.isEmpty = false := Bool.eq_false_iff.mpr hemp
      rcases hcase with hemp3 | ⟨hbn, hdn⟩ | ⟨v, hbv, hfv⟩ | ⟨v, hdv, hfv⟩
      · exact absurd hemp3 hemp
      · have hb : parsePrezzo data "benzina" = .ok none := by simp [parsePrezzo, hbn]
        have hd : parsePrezzo data "diesel" = .ok none := by simp [parsePrezzo, hdn]
        exact ⟨"Nessun prezzo fornito",
          by simp [api_cambia_prezzi_provincia, hemp2, hb, hd], rfl⟩
      · have hb : parsePrezzo data "benzina" = .error "Prezzo benzina non valido" := by
          simp [parsePrezzo, hbv, hfv]
        exact ⟨"Prezzo benzina non valido",
          by simp [api_cambia_prezzi_provincia, hemp2, hb], rfl⟩
      · cases hpb : parsePrezzo data "benzina" with
        | error msg =>
          refine ⟨msg, by simp [api_cambia_prezzi_provincia, hemp2, hpb], rfl⟩
        | ok pb =>
          have hd : parsePrezzo data "diesel" = .error "Prezzo diesel non valido" := by
            simp [parsePrezzo, hdv, hfv]
          exact ⟨"Prezzo diesel non valido",
            by simp [api_cambia_prezzi_provincia, hemp2, hpb, hd], rfl⟩

/-- C7 witness: the specification example — body with benzina "abc"
against province MI of the seed registry yields a 400 and no mutation. -/
theorem bulk_update_invalid_input_400_witness :
    ∃ msg, api_cambia_prezzi_provincia distributoriSeed "MI"
        (some [("benzina", .str "abc")]) = (.badRequest msg, distributoriSeed) ∧
      HandlerResult.status (.badRequest msg) = 400 :=
  bulk_update_invalid_input_400 distributoriSeed "MI" (some [("benzina", .str "abc")])
    (Or.inr ⟨[("benzina", .str "abc")], rfl,
      Or.inr (Or.inr (Or.inl ⟨.str "abc", rfl, rfl⟩))⟩)

/-- C6: a negative price passes the handler's input validation (it is
float-convertible) and then raises inside the update loop: the request
body benzina=2, diesel=-1.5 on province MI escapes the handler as an
unhandled error (HTTP 500, not 400), and leaves station 1 partially
updated — its benzina price changed to 2 while its diesel price is still
the original 1.80. -/
theorem bulk_update_negative_price_bug :
    api_cambia_prezzi_provincia distributoriSeed "MI"
        (some [("benzina", .num 2), ("diesel", .num (-1.5))]) =
      (.serverError "Prezzo negativo",
       [{ distributore1 with prezzo_benzina := 2 }, distributore2, distributore3]) ∧
      HandlerResult.status (.serverError "Prezzo negativo") = 500 ∧
      ({ distributore1 with prezzo_benzina := 2 }).prezzo_diesel = 1.80 ∧
      ({ distributore1 with prezzo_benzina := 2 }).prezzo_benzina ≠
        distributore1.prezzo_benzina := by
  have h1 : Distributore.set_prezzo distributore1 "benzina" 2 =
      .ok { distributore1 with prezzo_benzina := 2 } :=
    (set_prezzo_cases distributore1 "benzina" 2).2.1 (by norm_num) rfl
  have h2 : Distributore.set_prezzo { distributore1 with prezzo_benzina := 2 }
      "diesel" (-1.5) = .error "Prezzo negativo" :=
    (set_prezzo_cases { distributore1 with prezzo_benzina := 2 } "diesel" (-1.5)).1
      (by norm_num)
  have hup : updatePrezzi distributore1 (some 2) (some (-1.5)) =
      .error ("Prezzo negativo", { distributore1 with prezzo_benzina := 2 }) := by
    simp [updatePrezzi, h1, h2]
  have hm1 : matchProv "MI" distributore1 = true := by decide
  have hloop : loopDistributori "MI" (some 2) (some (-1.5)) distributoriSeed =
      .error ("Prezzo negativo",
        [{ distributore1 with prezzo_benzina := 2 }, distributore2, distributore3]) := by
    simp [distributoriSeed, loopDistributori, hm1, hup]
  have hb : parsePrezzo [("benzina", JsonVal.num 2), ("diesel", JsonVal.num (-1.5))]
      "benzina" = .ok (some 2) := rfl
  have hd : parsePrezzo [("benzina", JsonVal.num 2), ("diesel", JsonVal.num (-1.5))]
      "diesel" = .ok (some (-1.5)) := rfl
  refine ⟨?_, rfl, rfl, by norm_num [distributore1]⟩
  simp [api_cambia_prezzi_provincia, hb, hd, hloop]

/-- C8 (amended): both province-levels endpoints answer 200 with the
stations matching the province case-insensitively, in seed order and
possibly empty; the app.py endpoint serializes each station with exactly
the level-view fields, while the api_server.py variant serializes each
station with the full summary dictionary. -/
theorem livelli_provincia_spec :
    (∀ (reg : List Distributore) (provincia : String),
        api_livelli_provincia reg provincia =
          (200, (reg.filter (matchProv provincia)).map levelsEntry)) ∧
      (∀ d, (levelsEntry d).map Prod.fst = levelViewKeys) ∧
      (∀ (reg : List Distributore) (provincia : String),
        ApiServer.api_livelli_provincia reg provincia =
          (200, (reg.filter (matchProv provincia)).map ApiServer.to_dict)) := by
  refine ⟨fun reg provincia => ?_, fun d => rfl, fun reg provincia => rfl⟩
  by_cases h : (reg.filter (matchProv provincia)).isEmpty
  · simp [api_livelli_provincia, h, List.isEmpty_iff.mp h]
  · simp [api_livelli_provincia, h]

/-- C8 counterexample: on the seed registry and province MI, the
api_server.py province-levels endpoint does NOT serialize every selected
station with exactly the level-view fields — its entries carry extra
keys, for instance the address field. -/
theorem livelli_provincia_fields_counterexample :
    ((ApiServer.api_livelli_provincia distributoriSeed "MI").2.all
        (fun e => e.map Prod.fst == levelViewKeys)) = false ∧
      "indirizzo" ∈ (ApiServer.to_dict distributore1).map Prod.fst := by
  constructor
  · decide
  · decide
